import Mathlib

/-!
Verification of the storage-state calculation engine of the
`storage_resource` repository (`src/storage_resource/state.py`, with the
warning condition of `src/storage_resource/component.py`).

Shallow embedding conventions:
* Python floats are modelled as rationals (`ℚ`); the spec asks only for
  correctness "within floating tolerance", i.e. for the real-arithmetic
  behaviour of the formulas.
* A Python `raise` is modelled by an `Except` error value.  A raised
  `ValueError` becomes `StorageError.valueError msg` and a raised
  `ZeroDivisionError` becomes `StorageError.zeroDivisionError site`,
  where `site` names the dividing expression.  Every division in the
  Python source whose divisor can be zero is guarded explicitly, in the
  order in which Python would evaluate (and hence raise at) it.
* The mutation of `self.kwh_stored_current` performed by
  `calculate_state` is modelled by returning the post state; errors
  carry the state as it was at the moment of the raise, so atomicity
  statements can be read off the error value.
-/

/-- Error values: `valueError` models Python `ValueError` (the spec's
`InvalidConfiguration`/`InvalidDuration`), `zeroDivisionError` models
Python `ZeroDivisionError`, tagged with the site of the division. -/
inductive StorageError where
  | valueError (msg : String)
  | zeroDivisionError (site : String)
deriving DecidableEq

/-- Result snapshot returned by `calculate_state`
(`domain_tools`' `ResourceState`, fields as used at state.py:258). -/
structure ResourceState where
  customerid : Option String
  node : Option Int
  real_power : ℚ
  reactive_power : ℚ
  state_of_charge : ℚ
deriving DecidableEq

/-- The mutable state of `StorageState` (state.py:19), fields in
`__init__` assignment order.  `kwh_stored_current` is the extra field
set as a side effect of assigning `initial_state_of_charge`
(state.py:141). -/
structure StorageState where
  customer_id : Option String
  node : Option Int
  charge_rate : ℚ
  discharge_rate : ℚ
  charge_efficiency : ℚ
  discharge_efficiency : ℚ
  kwh_rated : ℚ
  initial_state_of_charge : ℚ
  kwh_stored_current : ℚ
  kw_rated : ℚ
  self_discharge : ℚ
deriving DecidableEq

/-- Validation predicate of `StorageState._check_percentage`
(state.py:260-265): the value must lie between 0.0 and 100.0. -/
abbrev check_percentage (v : ℚ) : Prop := 0 ≤ v ∧ v ≤ 100

/-- Validation predicate of `StorageState._check_positive_float`
(state.py:267-272).  Note that despite its name the Python check is
`lambda x : x >= 0.0`, i.e. non-negativity. -/
abbrev check_positive_float (v : ℚ) : Prop := 0 ≤ v

/-- Python `int()` applied to a (rational-valued) float: truncation
toward zero. -/
def pyInt (q : ℚ) : Int :=
  if 0 ≤ q then ⌊q⌋ else ⌈q⌉

/-- The `node` setter (state.py:62-77): `None` is accepted as-is, any
numeric value is converted with Python `int()` (truncation) and must
land in `{1, 2, 3}`, otherwise `ValueError` is raised. -/
def set_node (node : Option ℚ) : Except StorageError (Option Int) :=
  match node with
  | none => .ok none
  | some value =>
    if pyInt value = 1 ∨ pyInt value = 2 ∨ pyInt value = 3 then .ok (some (pyInt value))
    else .error (.valueError "node")

/-- `StorageState.__init__` (state.py:24-40): each property setter runs
its validation in assignment order (customer_id, node, charge_rate,
discharge_rate, charge_efficiency, discharge_efficiency, kwh_rated,
initial_state_of_charge — which also derives kwh_stored_current and
re-checks it with the non-negativity predicate — kw_rated,
self_discharge).  The first failing check aborts construction. -/
def StorageState.init (customer_id : Option String)
    (kwh_rated initial_state_of_charge kw_rated self_discharge
     charge_rate discharge_rate charge_efficiency discharge_efficiency : ℚ)
    (node : Option ℚ) : Except StorageError StorageState :=
  match set_node node with
  | .error e => .error e
  | .ok nd =>
    if ¬ check_percentage charge_rate then .error (.valueError "charge rate")
    else if ¬ check_percentage discharge_rate then .error (.valueError "discharge rate")
    else if ¬ check_percentage charge_efficiency then .error (.valueError "charge efficiency")
    else if ¬ check_percentage discharge_efficiency then .error (.valueError "discharge efficiency")
    else if ¬ check_positive_float kwh_rated then .error (.valueError "kwh_rated")
    else if ¬ check_percentage initial_state_of_charge then .error (.valueError "initial state of charge")
    else if ¬ check_positive_float (kwh_rated * (initial_state_of_charge / 100)) then .error (.valueError "kwh stored current")
    else if ¬ check_positive_float kw_rated then .error (.valueError "kw_rated")
    else if ¬ check_percentage self_discharge then .error (.valueError "self discharge")
    else .ok
      { customer_id := customer_id
        node := nd
        charge_rate := charge_rate
        discharge_rate := discharge_rate
        charge_efficiency := charge_efficiency
        discharge_efficiency := discharge_efficiency
        kwh_rated := kwh_rated
        initial_state_of_charge := initial_state_of_charge
        kwh_stored_current := kwh_rated * (initial_state_of_charge / 100)
        kw_rated := kw_rated
        self_discharge := self_discharge }

/-- Derived property `max_discharge_power` (state.py:179-181). -/
def StorageState.max_discharge_power (s : StorageState) : ℚ :=
  s.discharge_rate / 100 * s.kw_rated

/-- Derived property `max_charge_power` (state.py:183-186). -/
def StorageState.max_charge_power (s : StorageState) : ℚ :=
  -(s.charge_rate / 100 * s.kw_rated)

/-- The field constraints that every `StorageState` constructed through
the validating `init` satisfies (percentage fields in [0,100],
capacity/power ratings non-negative, stored energy within
[0, kwh_rated]). -/
abbrev StorageState.valid (s : StorageState) : Prop :=
  0 ≤ s.charge_rate ∧ s.charge_rate ≤ 100
  ∧ 0 ≤ s.discharge_rate ∧ s.discharge_rate ≤ 100
  ∧ 0 ≤ s.charge_efficiency ∧ s.charge_efficiency ≤ 100
  ∧ 0 ≤ s.discharge_efficiency ∧ s.discharge_efficiency ≤ 100
  ∧ 0 ≤ s.self_discharge ∧ s.self_discharge ≤ 100
  ∧ 0 ≤ s.kwh_rated ∧ 0 ≤ s.kw_rated
  ∧ 0 ≤ s.kwh_stored_current ∧ s.kwh_stored_current ≤ s.kwh_rated

/-- Step 1 of `calculate_state` (state.py:199-207): the requested power
is clamped to the maximum discharge power from above and to the maximum
charge power from below. -/
def StorageState.rate_clamped (s : StorageState) (real_power : ℚ) : ℚ :=
  if s.max_discharge_power < real_power then s.max_discharge_power
  else if real_power < s.max_charge_power then s.max_charge_power
  else real_power

/-- Step 2 of `calculate_state` (state.py:211-219): efficiency factor
selection on the clamped power.  This is the value Python computes when
no `ZeroDivisionError` occurs (`calculate_state` guards the
`discharge_efficiency = 0` raise separately). -/
def StorageState.efficiency_factor (s : StorageState) (power : ℚ) : ℚ :=
  if 0 ≤ power then -1 / (s.discharge_efficiency / 100)
  else -(s.charge_efficiency / 100)

/-- Step 3 of `calculate_state` (state.py:222): idle self-discharge
energy over the duration. -/
def StorageState.idle_energy (s : StorageState) (duration_h : ℚ) : ℚ :=
  s.self_discharge / 100 * s.kwh_rated * duration_h

/-- Step 4 of `calculate_state` (state.py:224): tentative next stored
energy computed from the rate-clamped power. -/
def StorageState.tentative_next (s : StorageState) (real_power duration_h : ℚ) : ℚ :=
  s.kwh_stored_current
    + s.efficiency_factor (s.rate_clamped real_power) * s.rate_clamped real_power * duration_h
    - s.idle_energy duration_h

/-- Capacity reconciliation condition (state.py:229 and 241): the
tentative next energy falls below 0 or above the rated capacity
(equivalently, `max_energy` is set to a non-`None` value). -/
abbrev StorageState.reconciliation_triggers (s : StorageState) (real_power duration_h : ℚ) : Prop :=
  s.tentative_next real_power duration_h < 0
  ∨ s.kwh_rated < s.tentative_next real_power duration_h

/-- The `max_energy` value computed when reconciliation triggers
(state.py:234-237 for the underflow branch, including the clamp of a
positive value to 0; state.py:245 for the overflow branch). -/
def StorageState.max_energy_val (s : StorageState) (real_power duration_h : ℚ) : ℚ :=
  if s.tentative_next real_power duration_h < 0 then
    if 0 < -(s.kwh_stored_current - s.idle_energy duration_h) then 0
    else -(s.kwh_stored_current - s.idle_energy duration_h)
  else s.kwh_rated - s.kwh_stored_current + s.idle_energy duration_h

/-- The stored energy committed at state.py:256: 0 after underflow,
`kwh_rated` after overflow, the tentative value otherwise. -/
def StorageState.kwh_stored_next (s : StorageState) (real_power duration_h : ℚ) : ℚ :=
  if s.tentative_next real_power duration_h < 0 then 0
  else if s.kwh_rated < s.tentative_next real_power duration_h then s.kwh_rated
  else s.tentative_next real_power duration_h

/-- Guard of step 6 (state.py:249): the achieved power is recomputed
exactly when reconciliation triggered and the clamped power is
non-zero. -/
abbrev StorageState.recompute_fires (s : StorageState) (real_power duration_h : ℚ) : Prop :=
  s.reconciliation_triggers real_power duration_h ∧ s.rate_clamped real_power ≠ 0

/-- The achieved real power of the transition (state.py:249-252): the
step-6 recomputation when it fires, the rate-clamped request
otherwise. -/
def StorageState.achieved_power (s : StorageState) (real_power duration_h : ℚ) : ℚ :=
  if s.recompute_fires real_power duration_h then
    s.max_energy_val real_power duration_h / duration_h
      / s.efficiency_factor (s.rate_clamped real_power)
  else s.rate_clamped real_power

/-- `StorageState.calculate_state` (state.py:188-258).  The error
guards reproduce, in Python evaluation order, every raise the method
can perform: the negative-duration `ValueError` (line 195), the
`ZeroDivisionError` of `-1 / (discharge_efficiency / 100)` (line 214),
the two `ZeroDivisionError`s of `max_energy / duration_h /
efficiency_factor` (line 252, left to right), the `ValueError` of the
`kwh_stored_current` setter at the commit (line 256, never reachable),
and the `ZeroDivisionError` of the `state_of_charge` property in the
returned snapshot (line 258, after the commit — the error therefore
carries the already-updated state). -/
def StorageState.calculate_state (s : StorageState) (real_power duration_h : ℚ) :
    Except (StorageError × StorageState) (StorageState × ResourceState) :=
  if duration_h < 0 then
    .error (.valueError "duration_h", s)
  else if 0 ≤ s.rate_clamped real_power ∧ s.discharge_efficiency / 100 = 0 then
    .error (.zeroDivisionError "efficiency_factor", s)
  else if s.recompute_fires real_power duration_h ∧ duration_h = 0 then
    .error (.zeroDivisionError "real_power_per_duration", s)
  else if s.recompute_fires real_power duration_h
          ∧ s.efficiency_factor (s.rate_clamped real_power) = 0 then
    .error (.zeroDivisionError "real_power_per_factor", s)
  else if s.kwh_stored_next real_power duration_h < 0 then
    .error (.valueError "kwh stored current", s)
  else if s.kwh_rated = 0 then
    .error (.zeroDivisionError "state_of_charge",
            { s with kwh_stored_current := s.kwh_stored_next real_power duration_h })
  else
    .ok ({ s with kwh_stored_current := s.kwh_stored_next real_power duration_h },
         { customerid := s.customer_id
           node := s.node
           real_power := s.achieved_power real_power duration_h
           reactive_power := 0
           state_of_charge := s.kwh_stored_next real_power duration_h / s.kwh_rated * 100 })

/-- The caller-visible warning condition of
`StorageResource._get_resource_state_message` (component.py:181-183): a
warning is attached to the published message exactly when the requested
power differs from the achieved power in the engine's result. -/
abbrev resource_state_warning (requested : ℚ) (state : ResourceState) : Prop :=
  requested ≠ state.real_power

/-- Inversion of a successful `calculate_state` call: the duration was
non-negative, every division that was executed had a non-zero divisor,
and the returned state and snapshot are the committed values. -/
theorem calc_ok_inv {s : StorageState} {p d : ℚ} {s' : StorageState} {r : ResourceState}
    (h : s.calculate_state p d = .ok (s', r)) :
    0 ≤ d
    ∧ (s.recompute_fires p d → d ≠ 0 ∧ s.efficiency_factor (s.rate_clamped p) ≠ 0)
    ∧ ¬ (0 ≤ s.rate_clamped p ∧ s.discharge_efficiency / 100 = 0)
    ∧ s.kwh_rated ≠ 0
    ∧ s' = { s with kwh_stored_current := s.kwh_stored_next p d }
    ∧ r = { customerid := s.customer_id, node := s.node,
            real_power := s.achieved_power p d, reactive_power := 0,
            state_of_charge := s.kwh_stored_next p d / s.kwh_rated * 100 } := by
  unfold StorageState.calculate_state at h
  split_ifs at h with h1 h2 h3 h4 h5 h6
  rw [Except.ok.injEq, Prod.mk.injEq] at h
  refine ⟨not_lt.mp h1, ?_, h2, h6, h.1.symm, h.2.symm⟩
  intro hf
  constructor
  · intro hd0; exact h3 ⟨hf, hd0⟩
  · intro hf0; exact h4 ⟨hf, hf0⟩

/-- The maximum powers of a valid state bracket zero. -/
theorem max_power_signs (s : StorageState) (hval : s.valid) :
    s.max_charge_power ≤ 0 ∧ 0 ≤ s.max_discharge_power := by
  obtain ⟨hcr0, -, hdr0, -, -, -, -, -, -, -, -, hkw, -, -⟩ := hval
  constructor
  · have : 0 ≤ s.charge_rate / 100 * s.kw_rated :=
      mul_nonneg (by positivity) hkw
    simpa [StorageState.max_charge_power] using this
  · exact mul_nonneg (by positivity) hkw

/-- The rate-clamped power always lies between the maximum charge and
discharge powers for a valid state. -/
theorem rate_clamped_bounds (s : StorageState) (p : ℚ) (hval : s.valid) :
    s.max_charge_power ≤ s.rate_clamped p ∧ s.rate_clamped p ≤ s.max_discharge_power := by
  obtain ⟨hmc, hmd⟩ := max_power_signs s hval
  unfold StorageState.rate_clamped
  split_ifs with h1 h2
  · exact ⟨le_trans hmc hmd, le_refl _⟩
  · exact ⟨le_refl _, le_trans hmc hmd⟩
  · exact ⟨not_lt.mp h2, not_lt.mp h1⟩

/-- The committed stored energy always lands inside [0, kwh_rated]. -/
theorem kwh_stored_next_bounds (s : StorageState) (p d : ℚ) (hrated : 0 ≤ s.kwh_rated) :
    0 ≤ s.kwh_stored_next p d ∧ s.kwh_stored_next p d ≤ s.kwh_rated := by
  unfold StorageState.kwh_stored_next
  split_ifs with h1 h2
  · exact ⟨le_refl 0, hrated⟩
  · exact ⟨hrated, le_refl _⟩
  · exact ⟨not_lt.mp h1, not_lt.mp h2⟩

/-- With duration 0 the idle loss vanishes and the tentative next
energy is exactly the current stored energy. -/
theorem tentative_next_zero_duration (s : StorageState) (p : ℚ) :
    s.idle_energy 0 = 0 ∧ s.tentative_next p 0 = s.kwh_stored_current := by
  unfold StorageState.tentative_next StorageState.idle_energy
  constructor <;> ring

/-- When step 6 does not fire, the achieved power is the rate-clamped
request. -/
theorem achieved_power_eq_of_not_fires (s : StorageState) (p d : ℚ)
    (h : ¬ s.recompute_fires p d) :
    s.achieved_power p d = s.rate_clamped p := by
  unfold StorageState.achieved_power
  exact if_neg h

/-- Arithmetic of the underflow recomputation while discharging: the
recomputed power is non-negative and strictly below the (positive)
clamped power. -/
theorem underflow_discharge_bounds (stored idle pc f d : ℚ)
    (hpc : 0 < pc) (hf : f < 0) (hd : 0 < d)
    (hun : stored + f * pc * d - idle < 0) :
    0 ≤ (if 0 < -(stored - idle) then 0 else -(stored - idle)) / (d * f)
    ∧ (if 0 < -(stored - idle) then 0 else -(stored - idle)) / (d * f) < pc := by
  have hdf : d * f < 0 := mul_neg_of_pos_of_neg hd hf
  split_ifs with hcl
  · rw [zero_div]; exact ⟨le_refl 0, hpc⟩
  · push_neg at hcl
    constructor
    · exact div_nonneg_iff.mpr (Or.inr ⟨hcl, hdf.le⟩)
    · rw [div_lt_iff_of_neg hdf]
      nlinarith
/-- Arithmetic of the underflow recomputation while charging: the idle
loss alone exceeds the stored energy, so the clamped `max_energy` is 0
and the recomputed power is 0. -/
theorem underflow_charge_value (stored idle pc f d : ℚ)
    (hst0 : 0 ≤ stored) (hpc : pc < 0) (hf : f < 0) (hd : 0 < d)
    (hun : stored + f * pc * d - idle < 0) :
    (if 0 < -(stored - idle) then 0 else -(stored - idle)) / (d * f) = 0 := by
  have hfpd : 0 ≤ f * pc * d := mul_nonneg (mul_pos_of_neg_of_neg hf hpc).le hd.le
  have hpos : 0 < -(stored - idle) := by linarith
  rw [if_pos hpos, zero_div]
/-- Arithmetic of the overflow recomputation while charging: the
recomputed power is non-positive and strictly above the (negative)
clamped power. -/
theorem overflow_charge_bounds (stored idle rated pc f d : ℚ)
    (hst1 : stored ≤ rated) (hidle : 0 ≤ idle)
    (hpc : pc < 0) (hf : f < 0) (hd : 0 < d)
    (hov : rated < stored + f * pc * d - idle) :
    pc < (rated - stored + idle) / (d * f) ∧ (rated - stored + idle) / (d * f) ≤ 0 := by
  have hdf : d * f < 0 := mul_neg_of_pos_of_neg hd hf
  have hm : 0 ≤ rated - stored + idle := by linarith
  constructor
  · rw [lt_div_iff_of_neg hdf]
    nlinarith
  · exact div_nonpos_iff.mpr (Or.inl ⟨hm, hdf.le⟩)

/-- If the efficiency factor is non-zero (so no `ZeroDivisionError` was
raised computing or dividing by it) and the efficiency percentages are
non-negative, the factor is strictly negative. -/
theorem efficiency_factor_neg (s : StorageState) (pc : ℚ)
    (hde0 : 0 ≤ s.discharge_efficiency) (hce0 : 0 ≤ s.charge_efficiency)
    (hne : s.efficiency_factor pc ≠ 0) :
    s.efficiency_factor pc < 0 := by
  unfold StorageState.efficiency_factor at hne ⊢
  split_ifs at hne ⊢ with hc
  · have hdiv : s.discharge_efficiency / 100 ≠ 0 := by
      intro h0; rw [h0] at hne; simp at hne
    have hpos : 0 < s.discharge_efficiency / 100 :=
      lt_of_le_of_ne (div_nonneg hde0 (by norm_num)) (Ne.symm hdiv)
    exact div_neg_of_neg_of_pos (by norm_num) hpos
  · have hdiv : s.charge_efficiency / 100 ≠ 0 := by
      intro h0; rw [h0] at hne; simp at hne
    have hpos : 0 < s.charge_efficiency / 100 :=
      lt_of_le_of_ne (div_nonneg hce0 (by norm_num)) (Ne.symm hdiv)
    linarith

/-- Sign and magnitude of the achieved power relative to the
rate-clamped request, for a valid state on a successful path (the
divisor side conditions of step 6 hold when it fires): the achieved
power keeps the sign of the clamped request, never exceeds it in
magnitude, and differs from it strictly whenever step 6 fired. -/
theorem achieved_power_bounds (s : StorageState) (p d : ℚ) (hval : s.valid) (hd : 0 ≤ d)
    (hg : s.recompute_fires p d → d ≠ 0 ∧ s.efficiency_factor (s.rate_clamped p) ≠ 0) :
    (0 ≤ s.rate_clamped p →
       0 ≤ s.achieved_power p d ∧ s.achieved_power p d ≤ s.rate_clamped p ∧
       (s.recompute_fires p d → s.achieved_power p d < s.rate_clamped p))
    ∧ (s.rate_clamped p ≤ 0 →
       s.rate_clamped p ≤ s.achieved_power p d ∧ s.achieved_power p d ≤ 0 ∧
       (s.recompute_fires p d → s.rate_clamped p < s.achieved_power p d)) := by
  by_cases hfire : s.recompute_fires p d
  case neg =>
    rw [achieved_power_eq_of_not_fires s p d hfire]
    exact ⟨fun h0 => ⟨h0, le_refl _, fun hf => absurd hf hfire⟩,
           fun h0 => ⟨le_refl _, h0, fun hf => absurd hf hfire⟩⟩
  case pos =>
    obtain ⟨hd0, hfne⟩ := hg hfire
    have hdpos : 0 < d := lt_of_le_of_ne hd (Ne.symm hd0)
    obtain ⟨htrig, hpc0⟩ := hfire
    obtain ⟨hcr0, hcr1, hdr0, hdr1, hce0, hce1, hde0, hde1, hsd0, hsd1, hkwh, hkw, hst0, hst1⟩ := hval
    have hfneg : s.efficiency_factor (s.rate_clamped p) < 0 :=
      efficiency_factor_neg s _ hde0 hce0 hfne
    have hidle : 0 ≤ s.idle_energy d :=
      mul_nonneg (mul_nonneg (div_nonneg hsd0 (by norm_num)) hkwh) hd
    have hach : s.achieved_power p d
        = s.max_energy_val p d / (d * s.efficiency_factor (s.rate_clamped p)) := by
      unfold StorageState.achieved_power
      rw [if_pos ⟨htrig, hpc0⟩, div_div]
    have htent : s.tentative_next p d
        = s.kwh_stored_current
          + s.efficiency_factor (s.rate_clamped p) * s.rate_clamped p * d
          - s.idle_energy d := rfl
    rcases lt_trichotomy (s.rate_clamped p) 0 with hpc | hpc | hpc
    · -- charging: the clamped power is strictly negative
      refine ⟨fun h0 => absurd h0 (not_le.mpr hpc), fun _ => ?_⟩
      rcases htrig with hun | hov
      · rw [htent] at hun
        have hme : s.max_energy_val p d
            = if 0 < -(s.kwh_stored_current - s.idle_energy d) then 0
              else -(s.kwh_stored_current - s.idle_energy d) := by
          unfold StorageState.max_energy_val
          rw [if_pos (by rw [htent]; exact hun)]
        have hz := underflow_charge_value s.kwh_stored_current (s.idle_energy d)
          (s.rate_clamped p) (s.efficiency_factor (s.rate_clamped p)) d hst0 hpc hfneg hdpos hun
        rw [hach, hme, hz]
        exact ⟨hpc.le, le_refl 0, fun _ => hpc⟩
      · rw [htent] at hov
        have hnot : ¬ s.tentative_next p d < 0 := by
          rw [htent]; push_neg; linarith
        have hme : s.max_energy_val p d
            = s.kwh_rated - s.kwh_stored_current + s.idle_energy d := by
          unfold StorageState.max_energy_val
          rw [if_neg hnot]
        have hb := overflow_charge_bounds s.kwh_stored_current (s.idle_energy d)
          s.kwh_rated (s.rate_clamped p) (s.efficiency_factor (s.rate_clamped p)) d
          hst1 hidle hpc hfneg hdpos hov
        rw [hach, hme]
        exact ⟨hb.1.le, hb.2, fun _ => hb.1⟩
    · exact absurd hpc hpc0
    · -- discharging: the clamped power is strictly positive
      refine ⟨fun _ => ?_, fun h0 => absurd h0 (not_le.mpr hpc)⟩
      rcases htrig with hun | hov
      · rw [htent] at hun
        have hme : s.max_energy_val p d
            = if 0 < -(s.kwh_stored_current - s.idle_energy d) then 0
              else -(s.kwh_stored_current - s.idle_energy d) := by
          unfold StorageState.max_energy_val
          rw [if_pos (by rw [htent]; exact hun)]
        have hb := underflow_discharge_bounds s.kwh_stored_current (s.idle_energy d)
          (s.rate_clamped p) (s.efficiency_factor (s.rate_clamped p)) d hpc hfneg hdpos hun
        rw [hach, hme]
        exact ⟨hb.1, hb.2.le, fun _ => hb.2⟩
      · rw [htent] at hov
        have h1 : s.efficiency_factor (s.rate_clamped p) * s.rate_clamped p < 0 :=
          mul_neg_of_neg_of_pos hfneg hpc
        have h2 : s.efficiency_factor (s.rate_clamped p) * s.rate_clamped p * d ≤ 0 :=
          mul_nonpos_iff.mpr (Or.inr ⟨h1.le, hd⟩)
        linarith

set_option maxHeartbeats 1000000 in
/-- Every state produced by the validating constructor satisfies
`StorageState.valid`; in particular the derived stored energy
`kwh_rated * (initial_state_of_charge / 100)` lies in [0, kwh_rated]. -/
theorem init_valid (cid : Option String) (kwh soc kw sd cr dr ce de : ℚ) (nd : Option ℚ)
    (s : StorageState) (h : StorageState.init cid kwh soc kw sd cr dr ce de nd = .ok s) :
    s.valid := by
  unfold StorageState.init at h
  cases hnd : set_node nd with
  | error e => rw [hnd] at h; exact absurd h (by simp)
  | ok v =>
    rw [hnd] at h
    split_ifs at h with h1 h2 h3 h4 h5 h6 h7 h8 h9
    rw [Except.ok.injEq] at h
    subst h
    have hsoc1 : soc / 100 ≤ 1 := (div_le_one (by norm_num)).mpr h6.2
    refine ⟨h1.1, h1.2, h2.1, h2.2, h3.1, h3.2, h4.1, h4.2, h9.1, h9.2, h5, h8, h7, ?_⟩
    calc kwh * (soc / 100) ≤ kwh * 1 := mul_le_mul_of_nonneg_left hsoc1 h5
      _ = kwh := mul_one kwh

/-- A concrete valid storage state shared by the witnesses: 100 kWh
rated capacity, 50 kWh stored, 100 kW rated power, full charge and
discharge rates, 100 % efficiencies, no self discharge. -/
def wit_state : StorageState := ⟨none, none, 100, 100, 100, 100, 100, 50, 50, 100, 0⟩

/-- The state after `wit_state` discharges 10 kW for 1 h. -/
def wit_state' : StorageState := { wit_state with kwh_stored_current := 40 }

/-- The result snapshot of that transition. -/
def wit_result : ResourceState := ⟨none, none, 10, 0, 40⟩

/-- Evaluation of the witness transition: 10 kW discharge for 1 h from
50 kWh stored leaves 40 kWh, achieved power equals the request. -/
theorem wit_calc : wit_state.calculate_state 10 1 = .ok (wit_state', wit_result) := by
  norm_num [wit_state, wit_state', wit_result, StorageState.calculate_state,
    StorageState.rate_clamped, StorageState.max_discharge_power, StorageState.max_charge_power,
    StorageState.efficiency_factor, StorageState.idle_energy, StorageState.tentative_next,
    StorageState.recompute_fires, StorageState.reconciliation_triggers,
    StorageState.kwh_stored_next, StorageState.max_energy_val, StorageState.achieved_power]

/-- The witness state satisfies the configuration constraints. -/
theorem wit_valid : wit_state.valid := by
  norm_num [wit_state, StorageState.valid]

/-- C1: for every valid state and every successful
`calculate_state(realPower, durationHours)` with `durationHours ≥ 0`,
the stored energy afterwards satisfies
`0 ≤ kwhStoredCurrent ≤ kwhRated`; the invariant is preserved by every
successful transition. -/
theorem C1_invariant_preserved (s : StorageState) (p d : ℚ) (s' : StorageState)
    (r : ResourceState) (hval : s.valid) (hd : 0 ≤ d)
    (hok : s.calculate_state p d = .ok (s', r)) :
    0 ≤ s'.kwh_stored_current ∧ s'.kwh_stored_current ≤ s'.kwh_rated := by
  obtain ⟨-, -, -, -, hs', -⟩ := calc_ok_inv hok
  obtain ⟨-, -, -, -, -, -, -, -, -, -, hkwh, -, -, -⟩ := hval
  subst hs'
  exact kwh_stored_next_bounds s p d hkwh

/-- C1 witness: the invariant holds after the witness transition. -/
theorem C1_invariant_preserved_witness :
    0 ≤ wit_state'.kwh_stored_current ∧ wit_state'.kwh_stored_current ≤ wit_state'.kwh_rated :=
  C1_invariant_preserved wit_state 10 1 wit_state' wit_result wit_valid (by norm_num) wit_calc

/-- C7: a negative duration makes `calculate_state` fail with the
duration `ValueError` (the spec's `InvalidDuration`), and the error
carries the unchanged pre-call state: nothing is mutated. -/
theorem C7_negative_duration_atomic (s : StorageState) (p d : ℚ) (hd : d < 0) :
    s.calculate_state p d = .error (.valueError "duration_h", s) := by
  unfold StorageState.calculate_state
  rw [if_pos hd]

/-- C7 witness: calling with duration -1 fails and returns the state
untouched. -/
theorem C7_negative_duration_atomic_witness :
    wit_state.calculate_state 5 (-1) = .error (.valueError "duration_h", wit_state) :=
  C7_negative_duration_atomic wit_state 5 (-1) (by norm_num)

/-- C6: with duration 0 (for any state whose stored energy satisfies
the data-model invariant `0 ≤ kwhStoredCurrent ≤ kwhRated`) the idle
loss is 0, capacity reconciliation never triggers, a successful call
leaves the stored energy unchanged and reports the rate-clamped request
as the real power, and even a failing call leaves the stored energy
unchanged. -/
theorem C6_zero_duration_frame (s : StorageState) (p : ℚ)
    (h0 : 0 ≤ s.kwh_stored_current) (h1 : s.kwh_stored_current ≤ s.kwh_rated) :
    s.idle_energy 0 = 0
    ∧ ¬ s.reconciliation_triggers p 0
    ∧ (∀ s' r, s.calculate_state p 0 = .ok (s', r) →
        s'.kwh_stored_current = s.kwh_stored_current ∧ r.real_power = s.rate_clamped p)
    ∧ (∀ e s', s.calculate_state p 0 = .error (e, s') →
        s'.kwh_stored_current = s.kwh_stored_current) := by
  obtain ⟨hidle, htent⟩ := tentative_next_zero_duration s p
  have hnt : ¬ s.reconciliation_triggers p 0 := by
    intro h
    rcases h with h | h <;> rw [htent] at h <;> linarith
  have hnext : s.kwh_stored_next p 0 = s.kwh_stored_current := by
    unfold StorageState.kwh_stored_next
    rw [htent, if_neg (not_lt.mpr h0), if_neg (not_lt.mpr h1)]
  refine ⟨hidle, hnt, ?_, ?_⟩
  · intro s' r hok
    obtain ⟨-, -, -, -, hs', hr⟩ := calc_ok_inv hok
    subst hs'; subst hr
    refine ⟨hnext, ?_⟩
    exact achieved_power_eq_of_not_fires s p 0 (fun hf => hnt hf.1)
  · intro e s' herr
    unfold StorageState.calculate_state at herr
    split_ifs at herr with hh1 hh2 hh3 hh4 hh5 hh6
    · exact absurd hh1 (by norm_num)
    · rw [Except.error.injEq, Prod.mk.injEq] at herr
      rw [← herr.2]
    · exact absurd hh3.1 (fun hf => hnt hf.1)
    · exact absurd hh4.1 (fun hf => hnt hf.1)
    · rw [hnext] at hh5; exact absurd hh5 (not_lt.mpr h0)
    · rw [Except.error.injEq, Prod.mk.injEq] at herr
      rw [← herr.2, hnext]

/-- Result snapshot of the zero-duration witness call. -/
def wit_result0 : ResourceState := ⟨none, none, 10, 0, 50⟩

/-- Evaluation of the zero-duration witness call: nothing changes. -/
theorem wit_calc0 : wit_state.calculate_state 10 0 = .ok (wit_state, wit_result0) := by
  norm_num [wit_state, wit_result0, StorageState.calculate_state,
    StorageState.rate_clamped, StorageState.max_discharge_power, StorageState.max_charge_power,
    StorageState.efficiency_factor, StorageState.idle_energy, StorageState.tentative_next,
    StorageState.recompute_fires, StorageState.reconciliation_triggers,
    StorageState.kwh_stored_next, StorageState.max_energy_val, StorageState.achieved_power]

/-- C6 witness: the zero-duration call on the witness state keeps the
stored energy and passes the rate-clamped request through. -/
theorem C6_zero_duration_frame_witness :
    wit_state.idle_energy 0 = 0
    ∧ ¬ wit_state.reconciliation_triggers 10 0
    ∧ (wit_state.kwh_stored_current = wit_state.kwh_stored_current
        ∧ wit_result0.real_power = wit_state.rate_clamped 10) := by
  have h := C6_zero_duration_frame wit_state 10 (by norm_num [wit_state]) (by norm_num [wit_state])
  exact ⟨h.1, h.2.1, h.2.2.1 wit_state wit_result0 wit_calc0⟩

/-- C5: a request above `max_discharge_power` is clamped to it and a
request below `max_charge_power` is clamped to it before any energy
accounting (the tentative energy is computed from the clamped power,
last conjunct), and on a successful call the achieved power never
exceeds the bound that was applied. -/
theorem C5_rate_clamp (s : StorageState) (p d : ℚ) (s' : StorageState) (r : ResourceState)
    (hval : s.valid) (hok : s.calculate_state p d = .ok (s', r)) :
    (s.max_discharge_power < p →
        s.rate_clamped p = s.max_discharge_power ∧ r.real_power ≤ s.max_discharge_power)
    ∧ (p < s.max_charge_power →
        s.rate_clamped p = s.max_charge_power ∧ s.max_charge_power ≤ r.real_power)
    ∧ s.tentative_next p d
        = s.kwh_stored_current
          + s.efficiency_factor (s.rate_clamped p) * s.rate_clamped p * d
          - s.idle_energy d := by
  obtain ⟨hd, hg, -, -, -, hr⟩ := calc_ok_inv hok
  have hb := achieved_power_bounds s p d hval hd hg
  obtain ⟨hmc, hmd⟩ := max_power_signs s hval
  subst hr
  refine ⟨?_, ?_, rfl⟩
  · intro hgt
    have hpc : s.rate_clamped p = s.max_discharge_power := by
      unfold StorageState.rate_clamped; rw [if_pos hgt]
    obtain ⟨-, ha1, -⟩ := hb.1 (hpc ▸ hmd)
    exact ⟨hpc, le_trans ha1 hpc.le⟩
  · intro hlt
    have hngt : ¬ s.max_discharge_power < p :=
      not_lt.mpr (le_trans (le_trans hlt.le hmc) hmd)
    have hpc : s.rate_clamped p = s.max_charge_power := by
      unfold StorageState.rate_clamped; rw [if_neg hngt, if_pos hlt]
    obtain ⟨ha0, -, -⟩ := hb.2 (hpc ▸ hmc)
    exact ⟨hpc, le_trans hpc.ge ha0⟩

/-- C5 witness: the witness transition satisfies the clamping facts. -/
theorem C5_rate_clamp_witness :
    (wit_state.max_discharge_power < 10 →
        wit_state.rate_clamped 10 = wit_state.max_discharge_power
        ∧ wit_result.real_power ≤ wit_state.max_discharge_power)
    ∧ ((10:ℚ) < wit_state.max_charge_power →
        wit_state.rate_clamped 10 = wit_state.max_charge_power
        ∧ wit_state.max_charge_power ≤ wit_result.real_power)
    ∧ wit_state.tentative_next 10 1
        = wit_state.kwh_stored_current
          + wit_state.efficiency_factor (wit_state.rate_clamped 10) * wit_state.rate_clamped 10 * 1
          - wit_state.idle_energy 1 :=
  C5_rate_clamp wit_state 10 1 wit_state' wit_result wit_valid wit_calc

/-- C10: for a valid state with strictly positive efficiencies, a
successful call with positive duration reports a real power inside
[max_charge_power, max_discharge_power]; the achieved power keeps the
sign of the rate-clamped request and never exceeds it in magnitude. -/
theorem C10_achieved_power_range (s : StorageState) (p d : ℚ) (s' : StorageState)
    (r : ResourceState) (hval : s.valid)
    (hce : 0 < s.charge_efficiency) (hde : 0 < s.discharge_efficiency)
    (hd : 0 < d) (hok : s.calculate_state p d = .ok (s', r)) :
    (s.max_charge_power ≤ r.real_power ∧ r.real_power ≤ s.max_discharge_power)
    ∧ (0 ≤ s.rate_clamped p → 0 ≤ r.real_power ∧ r.real_power ≤ s.rate_clamped p)
    ∧ (s.rate_clamped p ≤ 0 → s.rate_clamped p ≤ r.real_power ∧ r.real_power ≤ 0) := by
  obtain ⟨hd0, hg, -, -, -, hr⟩ := calc_ok_inv hok
  have hb := achieved_power_bounds s p d hval hd0 hg
  have hcl := rate_clamped_bounds s p hval
  subst hr
  rcases le_total 0 (s.rate_clamped p) with hsgn | hsgn
  · obtain ⟨ha0, ha1, -⟩ := hb.1 hsgn
    obtain ⟨hmc, -⟩ := max_power_signs s hval
    refine ⟨⟨le_trans hmc ha0, le_trans ha1 hcl.2⟩, fun _ => ⟨ha0, ha1⟩, fun hle => ?_⟩
    have hz : s.rate_clamped p = 0 := le_antisymm hle hsgn
    rw [hz] at ha1
    exact ⟨le_trans hle ha0, ha1⟩
  · obtain ⟨ha0, ha1, -⟩ := hb.2 hsgn
    obtain ⟨-, hmd⟩ := max_power_signs s hval
    refine ⟨⟨le_trans hcl.1 ha0, le_trans ha1 hmd⟩, fun hge => ?_, fun _ => ⟨ha0, ha1⟩⟩
    have hz : s.rate_clamped p = 0 := le_antisymm hsgn hge
    rw [hz] at ha0
    exact ⟨ha0, by linarith⟩

/-- C10 witness: the witness transition's real power is in range. -/
theorem C10_achieved_power_range_witness :
    (wit_state.max_charge_power ≤ wit_result.real_power
      ∧ wit_result.real_power ≤ wit_state.max_discharge_power)
    ∧ (0 ≤ wit_state.rate_clamped 10 →
        0 ≤ wit_result.real_power ∧ wit_result.real_power ≤ wit_state.rate_clamped 10)
    ∧ (wit_state.rate_clamped 10 ≤ 0 →
        wit_state.rate_clamped 10 ≤ wit_result.real_power ∧ wit_result.real_power ≤ 0) :=
  C10_achieved_power_range wit_state 10 1 wit_state' wit_result wit_valid
    (by norm_num [wit_state]) (by norm_num [wit_state]) (by norm_num) wit_calc

/-- C2 (amended): on a successful call of a valid state, the published
real power differs from the requested power exactly when the rate clamp
changed the request or the step-6 recomputation fired; whenever the
tentative next energy leaves [0, kwh_rated] and the clamped power is
non-zero, the achieved power differs from the requested power and the
warning condition of the component holds. -/
theorem C2_warning_characterization (s : StorageState) (p d : ℚ) (s' : StorageState)
    (r : ResourceState) (hval : s.valid) (hok : s.calculate_state p d = .ok (s', r)) :
    (r.real_power ≠ p ↔ (s.rate_clamped p ≠ p ∨ s.recompute_fires p d))
    ∧ (s.reconciliation_triggers p d → s.rate_clamped p ≠ 0 →
        (r.real_power ≠ p ∧ resource_state_warning p r)) := by
  obtain ⟨hd, hg, -, -, -, hr⟩ := calc_ok_inv hok
  have hb := achieved_power_bounds s p d hval hd hg
  obtain ⟨hmc, hmd⟩ := max_power_signs s hval
  subst hr
  have hmain : s.achieved_power p d ≠ p ↔ (s.rate_clamped p ≠ p ∨ s.recompute_fires p d) := by
    constructor
    · intro hne
      by_contra hcon
      push_neg at hcon
      obtain ⟨hclamp, hnf⟩ := hcon
      exact hne (by rw [achieved_power_eq_of_not_fires s p d hnf, hclamp])
    · intro hor
      by_cases hgt : s.max_discharge_power < p
      · have hpc : s.rate_clamped p = s.max_discharge_power := by
          unfold StorageState.rate_clamped; rw [if_pos hgt]
        obtain ⟨-, ha1, -⟩ := hb.1 (hpc ▸ hmd)
        have : s.achieved_power p d < p := lt_of_le_of_lt (ha1.trans hpc.le) hgt
        exact this.ne
      · by_cases hlt : p < s.max_charge_power
        · have hpc : s.rate_clamped p = s.max_charge_power := by
            unfold StorageState.rate_clamped; rw [if_neg hgt, if_pos hlt]
          obtain ⟨ha0, -, -⟩ := hb.2 (hpc ▸ hmc)
          have : p < s.achieved_power p d := lt_of_lt_of_le (hpc ▸ hlt) ha0
          exact this.ne'
        · have hpc : s.rate_clamped p = p := by
            unfold StorageState.rate_clamped; rw [if_neg hgt, if_neg hlt]
          rcases hor with hclamp | hfire
          · exact absurd hpc hclamp
          · have hpne : p ≠ 0 := hpc ▸ hfire.2
            rcases lt_or_gt_of_ne hpne with hneg | hpos
            · obtain ⟨-, -, hstrict⟩ := hb.2 (by rw [hpc]; exact hneg.le)
              have := hstrict hfire
              rw [hpc] at this
              exact this.ne'
            · obtain ⟨-, -, hstrict⟩ := hb.1 (by rw [hpc]; exact hpos.le)
              have := hstrict hfire
              rw [hpc] at this
              exact this.ne
  refine ⟨by simpa using hmain, ?_⟩
  intro htrig hpcne
  have hne : s.achieved_power p d ≠ p := hmain.mpr (Or.inr ⟨htrig, hpcne⟩)
  exact ⟨by simpa using hne, by simpa [resource_state_warning] using hne.symm⟩

/-- A valid state whose rated power is small enough that a 20 kW
request is rate-clamped to 10 kW while the capacity is never
challenged. -/
def clamp_state : StorageState := ⟨none, none, 100, 100, 100, 100, 100, 50, 50, 10, 0⟩

/-- The post state of the clamped witness transition. -/
def clamp_state' : StorageState := { clamp_state with kwh_stored_current := 40 }

/-- The result snapshot of the clamped witness transition. -/
def clamp_result : ResourceState := ⟨none, none, 10, 0, 40⟩

/-- Evaluation of the clamped transition: requesting 20 kW for 1 h
yields 10 kW achieved with no reconciliation. -/
theorem clamp_calc : clamp_state.calculate_state 20 1 = .ok (clamp_state', clamp_result) := by
  norm_num [clamp_state, clamp_state', clamp_result, StorageState.calculate_state,
    StorageState.rate_clamped, StorageState.max_discharge_power, StorageState.max_charge_power,
    StorageState.efficiency_factor, StorageState.idle_energy, StorageState.tentative_next,
    StorageState.recompute_fires, StorageState.reconciliation_triggers,
    StorageState.kwh_stored_next, StorageState.max_energy_val, StorageState.achieved_power]

/-- A valid state with heavy self-discharge and little stored energy:
a zero-power request still underflows the capacity check. -/
def idle_state : StorageState := ⟨none, none, 100, 100, 90, 90, 10, 10, 1, 100, 100⟩

/-- The post state of the zero-power idle transition: empty storage. -/
def idle_state' : StorageState := { idle_state with kwh_stored_current := 0 }

/-- The result snapshot of the zero-power idle transition. -/
def idle_result : ResourceState := ⟨none, none, 0, 0, 0⟩

/-- Evaluation of the zero-power idle transition: the idle loss
underflows the capacity, the storage empties, the reported power is the
requested 0. -/
theorem idle_calc : idle_state.calculate_state 0 1 = .ok (idle_state', idle_result) := by
  norm_num [idle_state, idle_state', idle_result, StorageState.calculate_state,
    StorageState.rate_clamped, StorageState.max_discharge_power, StorageState.max_charge_power,
    StorageState.efficiency_factor, StorageState.idle_energy, StorageState.tentative_next,
    StorageState.recompute_fires, StorageState.reconciliation_triggers,
    StorageState.kwh_stored_next, StorageState.max_energy_val, StorageState.achieved_power]

/-- C2 counterexample, both directions of the claim.  First: rate
clamping alone (20 kW requested, 10 kW rate limit) makes the published
power differ from the request while the step-6 recomputation never
fired, refuting "achieved differs from requested if and only if the
recomputation fired".  Second: a zero-power request whose tentative
next energy goes below 0 still reports achieved power equal to the
requested 0 with no warning, refuting "whenever the tentative next
energy would go below 0 or above kwhRated, the achieved power differs
from the requested power and the warning condition is true". -/
theorem C2_counterexample :
    (clamp_state.calculate_state 20 1 = .ok (clamp_state', clamp_result)
      ∧ clamp_result.real_power ≠ 20
      ∧ ¬ clamp_state.recompute_fires 20 1)
    ∧ (idle_state.reconciliation_triggers 0 1
      ∧ idle_state.calculate_state 0 1 = .ok (idle_state', idle_result)
      ∧ idle_result.real_power = 0
      ∧ ¬ resource_state_warning 0 idle_result) := by
  constructor
  · refine ⟨clamp_calc, by norm_num [clamp_result], ?_⟩
    intro hf
    rcases hf.1 with h | h <;>
      rw [show clamp_state.tentative_next 20 1 = 40 by
        norm_num [clamp_state, StorageState.tentative_next, StorageState.rate_clamped,
          StorageState.max_discharge_power, StorageState.max_charge_power,
          StorageState.efficiency_factor, StorageState.idle_energy]] at h <;>
      norm_num [clamp_state] at h
  · have ht : idle_state.tentative_next 0 1 = -9 := by
      norm_num [idle_state, StorageState.tentative_next, StorageState.rate_clamped,
        StorageState.max_discharge_power, StorageState.max_charge_power,
        StorageState.efficiency_factor, StorageState.idle_energy]
    refine ⟨Or.inl (by rw [ht]; norm_num), idle_calc, by norm_num [idle_result], ?_⟩
    norm_num [resource_state_warning, idle_result]

/-- C2 witness: the characterization holds on the witness transition. -/
theorem C2_warning_characterization_witness :
    (wit_result.real_power ≠ 10
      ↔ (wit_state.rate_clamped 10 ≠ 10 ∨ wit_state.recompute_fires 10 1))
    ∧ (wit_state.reconciliation_triggers 10 1 → wit_state.rate_clamped 10 ≠ 0 →
        (wit_result.real_power ≠ 10 ∧ resource_state_warning 10 wit_result)) :=
  C2_warning_characterization wit_state 10 1 wit_state' wit_result wit_valid wit_calc

/-- C4 (amended): when the tentative next energy lies strictly within
[0, kwh_rated], the achieved power equals the rate-clamped request
exactly; and if additionally the rate clamp left the request unchanged,
no warning condition is raised. -/
theorem C4_within_capacity (s : StorageState) (p d : ℚ) (s' : StorageState)
    (r : ResourceState) (hok : s.calculate_state p d = .ok (s', r))
    (hlow : 0 < s.tentative_next p d) (hhigh : s.tentative_next p d < s.kwh_rated) :
    r.real_power = s.rate_clamped p
    ∧ (s.rate_clamped p = p → ¬ resource_state_warning p r) := by
  obtain ⟨-, -, -, -, -, hr⟩ := calc_ok_inv hok
  subst hr
  have hnf : ¬ s.recompute_fires p d := by
    intro hf
    rcases hf.1 with h | h <;> linarith
  have heq := achieved_power_eq_of_not_fires s p d hnf
  refine ⟨by simpa using heq, ?_⟩
  intro hclamp hw
  exact hw (by simp only [ResourceState.real_power] at *; rw [heq, hclamp])

/-- C4 counterexample: with the tentative next energy strictly inside
[0, kwh_rated], a request beyond the rate limit still produces a
warning (20 kW requested, 10 kW achieved), refuting the unconditional
"no warning condition" part of the claim. -/
theorem C4_counterexample :
    0 < clamp_state.tentative_next 20 1
    ∧ clamp_state.tentative_next 20 1 < clamp_state.kwh_rated
    ∧ clamp_state.calculate_state 20 1 = .ok (clamp_state', clamp_result)
    ∧ resource_state_warning 20 clamp_result := by
  have ht : clamp_state.tentative_next 20 1 = 40 := by
    norm_num [clamp_state, StorageState.tentative_next, StorageState.rate_clamped,
      StorageState.max_discharge_power, StorageState.max_charge_power,
      StorageState.efficiency_factor, StorageState.idle_energy]
  refine ⟨by rw [ht]; norm_num, by rw [ht]; norm_num [clamp_state], clamp_calc, ?_⟩
  norm_num [resource_state_warning, clamp_result]

/-- C4 witness: the witness transition stays within capacity; its
achieved power equals the (unchanged) clamped request and no warning is
raised. -/
theorem C4_within_capacity_witness :
    wit_result.real_power = wit_state.rate_clamped 10
    ∧ (wit_state.rate_clamped 10 = 10 → ¬ resource_state_warning 10 wit_result) :=
  C4_within_capacity wit_state 10 1 wit_state' wit_result wit_calc
    (by norm_num [wit_state, StorageState.tentative_next, StorageState.rate_clamped,
      StorageState.max_discharge_power, StorageState.max_charge_power,
      StorageState.efficiency_factor, StorageState.idle_energy])
    (by norm_num [wit_state, StorageState.tentative_next, StorageState.rate_clamped,
      StorageState.max_discharge_power, StorageState.max_charge_power,
      StorageState.efficiency_factor, StorageState.idle_energy])

/-- A configuration whose charge efficiency is 0 — accepted by the
percentage validation — with a large idle loss so that a charging
request underflows the capacity check. -/
def zero_eff_state : StorageState := ⟨none, none, 100, 100, 0, 90, 10, 10, 1, 100, 100⟩

/-- C3 counterexample: with `charge_efficiency = 0` (inside the
validated range [0,100]) a charging request of -5 kW for 1 h reaches
the step-6 recomputation and divides by the zero efficiency factor:
`calculate_state` raises `ZeroDivisionError` there, refuting "the
division by efficiencyFactor in that recomputation never divides by
zero". -/
theorem C3_counterexample :
    (0 ≤ zero_eff_state.charge_efficiency ∧ zero_eff_state.charge_efficiency ≤ 100
      ∧ 0 ≤ zero_eff_state.discharge_efficiency ∧ zero_eff_state.discharge_efficiency ≤ 100)
    ∧ zero_eff_state.recompute_fires (-5) 1
    ∧ zero_eff_state.calculate_state (-5) 1
        = .error (.zeroDivisionError "real_power_per_factor", zero_eff_state) := by
  have ht : zero_eff_state.tentative_next (-5) 1 = -9 := by
    norm_num [zero_eff_state, StorageState.tentative_next, StorageState.rate_clamped,
      StorageState.max_discharge_power, StorageState.max_charge_power,
      StorageState.efficiency_factor, StorageState.idle_energy]
  have hpc : zero_eff_state.rate_clamped (-5) = -5 := by
    norm_num [zero_eff_state, StorageState.rate_clamped,
      StorageState.max_discharge_power, StorageState.max_charge_power]
  have hfire : zero_eff_state.recompute_fires (-5) 1 := by
    refine ⟨Or.inl (by rw [ht]; norm_num), by rw [hpc]; norm_num⟩
  refine ⟨by norm_num [zero_eff_state], hfire, ?_⟩
  unfold StorageState.calculate_state
  rw [if_neg (by norm_num), if_neg (by rw [hpc]; norm_num),
    if_neg (fun h => by norm_num at h),
    if_pos ⟨hfire, by rw [hpc]; norm_num [zero_eff_state, StorageState.efficiency_factor]⟩]

/-- C3 (amended): with both efficiencies strictly positive the
efficiency factor is never zero, so neither the factor selection nor
the step-6 recomputation can raise a `ZeroDivisionError` on the
efficiency factor. -/
theorem C3_no_zero_division (s : StorageState) (p d : ℚ)
    (hce : 0 < s.charge_efficiency) (hde : 0 < s.discharge_efficiency) :
    s.efficiency_factor (s.rate_clamped p) ≠ 0
    ∧ (∀ st, s.calculate_state p d ≠ .error (.zeroDivisionError "efficiency_factor", st))
    ∧ (∀ st, s.calculate_state p d ≠ .error (.zeroDivisionError "real_power_per_factor", st)) := by
  have hfac : s.efficiency_factor (s.rate_clamped p) ≠ 0 := by
    unfold StorageState.efficiency_factor
    split_ifs with hc
    · exact div_ne_zero (by norm_num) (ne_of_gt (div_pos hde (by norm_num)))
    · exact neg_ne_zero.mpr (ne_of_gt (div_pos hce (by norm_num)))
  have hsel : ¬ (0 ≤ s.rate_clamped p ∧ s.discharge_efficiency / 100 = 0) := by
    rintro ⟨-, h0⟩
    rw [div_eq_zero_iff] at h0
    rcases h0 with h0 | h0
    · linarith
    · norm_num at h0
  have hstep : ∀ st, s.calculate_state p d = .error (.zeroDivisionError "efficiency_factor", st)
      ∨ s.calculate_state p d = .error (.zeroDivisionError "real_power_per_factor", st) → False := by
    intro st h
    unfold StorageState.calculate_state at h
    by_cases h1 : d < 0
    · rw [if_pos h1] at h; rcases h with h | h <;> simp at h
    · rw [if_neg h1, if_neg hsel] at h
      by_cases h3 : s.recompute_fires p d ∧ d = 0
      · rw [if_pos h3] at h
        rcases h with h | h <;>
          · simp only [Except.error.injEq, Prod.mk.injEq,
              StorageError.zeroDivisionError.injEq] at h
            exact absurd h.1 (by decide)
      · rw [if_neg h3,
          if_neg (fun hc => hfac hc.2 : ¬ (s.recompute_fires p d
            ∧ s.efficiency_factor (s.rate_clamped p) = 0))] at h
        by_cases h5 : s.kwh_stored_next p d < 0
        · rw [if_pos h5] at h; rcases h with h | h <;> simp at h
        · rw [if_neg h5] at h
          by_cases h6 : s.kwh_rated = 0
          · rw [if_pos h6] at h
            rcases h with h | h <;>
              · simp only [Except.error.injEq, Prod.mk.injEq,
                  StorageError.zeroDivisionError.injEq] at h
                exact absurd h.1 (by decide)
          · rw [if_neg h6] at h; rcases h with h | h <;> simp at h
  exact ⟨hfac, fun st h => hstep st (Or.inl h), fun st h => hstep st (Or.inr h)⟩

/-- C3 witness: the witness state has positive efficiencies; its factor
is non-zero and its transition raises neither efficiency-related
`ZeroDivisionError`. -/
theorem C3_no_zero_division_witness :
    wit_state.efficiency_factor (wit_state.rate_clamped 10) ≠ 0
    ∧ wit_state.calculate_state 10 1
        ≠ .error (.zeroDivisionError "real_power_per_factor", wit_state) :=
  ⟨(C3_no_zero_division wit_state 10 1 (by norm_num [wit_state]) (by norm_num [wit_state])).1,
   (C3_no_zero_division wit_state 10 1 (by norm_num [wit_state])
      (by norm_num [wit_state])).2.2 wit_state⟩

/-- The state produced by constructing with `kwh_rated = 0` and
otherwise unremarkable valid arguments. -/
def zero_rated_state : StorageState := ⟨none, none, 100, 100, 90, 90, 0, 50, 0, 10, 0⟩

/-- Construction with `kwh_rated = 0` succeeds: the "positive float"
check of the setter is in fact `x >= 0.0`. -/
theorem zero_rated_init :
    StorageState.init none 0 50 10 0 100 100 90 90 none = .ok zero_rated_state := by
  norm_num [StorageState.init, set_node, zero_rated_state]

/-- C8 counterexample: `kwh_rated = 0` passes validation and yields a
successfully constructed state with `kwh_rated = 0`, refuting both
"every successfully constructed StorageState has kwhRated > 0" and
"a kwhRated of 0 ... is rejected with InvalidConfiguration". -/
theorem C8_counterexample :
    StorageState.init none 0 50 10 0 100 100 90 90 none = .ok zero_rated_state
    ∧ zero_rated_state.kwh_rated = 0 :=
  ⟨zero_rated_init, by norm_num [zero_rated_state]⟩

set_option maxHeartbeats 1000000 in
/-- C8 (amended): the `kwh_rated` validation accepts exactly the
non-negative values — every successfully constructed state has
`kwh_rated ≥ 0` (0 included), and a negative `kwh_rated` always makes
construction fail. -/
theorem C8_kwh_rated_nonneg (cid : Option String) (kwh soc kw sd cr dr ce de : ℚ)
    (nd : Option ℚ) :
    (∀ s, StorageState.init cid kwh soc kw sd cr dr ce de nd = .ok s →
        s.kwh_rated = kwh ∧ 0 ≤ s.kwh_rated)
    ∧ (kwh < 0 → ∀ s, StorageState.init cid kwh soc kw sd cr dr ce de nd ≠ .ok s) := by
  constructor
  · intro s h
    unfold StorageState.init at h
    cases hnd : set_node nd with
    | error e => rw [hnd] at h; exact absurd h (by simp)
    | ok v =>
      rw [hnd] at h
      split_ifs at h with h1 h2 h3 h4 h5 h6 h7 h8 h9
      rw [Except.ok.injEq] at h
      subst h
      exact ⟨rfl, h5⟩
  · intro hneg s h
    unfold StorageState.init at h
    cases hnd : set_node nd with
    | error e => rw [hnd] at h; exact absurd h (by simp)
    | ok v =>
      rw [hnd] at h
      split_ifs at h with h1 h2 h3 h4 h5 h6 h7 h8 h9
      exact absurd h5 (not_le.mpr hneg)

/-- C8 witness: the zero-rated construction instantiates the amended
claim. -/
theorem C8_kwh_rated_nonneg_witness :
    zero_rated_state.kwh_rated = 0 ∧ 0 ≤ zero_rated_state.kwh_rated :=
  (C8_kwh_rated_nonneg none 0 50 10 0 100 100 90 90 none).1 zero_rated_state zero_rated_init

/-- C9 counterexample: the numeric value 5/2 (Python float 2.5) is
neither 1, 2 nor 3, yet the node setter accepts it — Python's `int()`
truncates it to 2 — refuting "the node field accepts exactly the values
1, 2, 3, or absent". -/
theorem C9_counterexample :
    set_node (some (5/2)) = .ok (some 2)
    ∧ (5/2 : ℚ) ≠ 1 ∧ (5/2 : ℚ) ≠ 2 ∧ (5/2 : ℚ) ≠ 3 := by
  refine ⟨?_, by norm_num, by norm_num, by norm_num⟩
  have hp : pyInt (5/2) = 2 := by norm_num [pyInt]
  have hm : set_node (some (5/2))
      = (if pyInt (5/2) = 1 ∨ pyInt (5/2) = 2 ∨ pyInt (5/2) = 3
         then .ok (some (pyInt (5/2))) else .error (.valueError "node")) := rfl
  rw [hm, hp]
  norm_num

/-- C9 (amended): the node setter accepts `None` as-is, accepts any
numeric value whose `int()` truncation lands in {1,2,3} (storing the
truncated integer), and rejects every numeric value whose truncation
falls outside {1,2,3} with the node `ValueError`. -/
theorem C9_node_truncation (q : ℚ) :
    set_node none = .ok none
    ∧ (pyInt q = 1 ∨ pyInt q = 2 ∨ pyInt q = 3 → set_node (some q) = .ok (some (pyInt q)))
    ∧ (¬ (pyInt q = 1 ∨ pyInt q = 2 ∨ pyInt q = 3) →
        set_node (some q) = .error (.valueError "node")) := by
  have hm : set_node (some q)
      = (if pyInt q = 1 ∨ pyInt q = 2 ∨ pyInt q = 3
         then .ok (some (pyInt q)) else .error (.valueError "node")) := rfl
  refine ⟨rfl, ?_, ?_⟩
  · intro h; rw [hm, if_pos h]
  · intro h; rw [hm, if_neg h]

/-- C9 witness: 5/2 truncates to 2 and is accepted with stored node
value `pyInt (5/2)`. -/
theorem C9_node_truncation_witness :
    set_node (some (5/2)) = .ok (some (pyInt (5/2))) :=
  (C9_node_truncation (5/2)).2.1 (by norm_num [pyInt])
